import Mathlib

/-!
Shallow embedding of the quiz-back backend (src/backend/app.py and
src/backend/security.py) and proofs of its specified properties.

The quiz session store (`app.py`) is modelled as pure functions over a
`PageState`; each HTTP handler becomes a function returning the handler's
result (`Except HErr α`, where raising an `HTTPException` is `.error`)
together with the page state after the call.  Timestamps
(`datetime.now().isoformat()`) are passed in as explicit string arguments.
Python `float` percentages are modelled with exact rationals `ℚ`.

The token verifier (`security.py`) is modelled over an explicit environment
`PyEnv` supplying the behaviour of the external library calls
(`base64.b64decode`, `json.loads`, `PUBLIC_KEY.verify`) and the current date;
Python exception flow, including which exception classes the handler's
`except (ValueError, KeyError, json.JSONDecodeError)` clause catches, is
modelled explicitly with `Except PyErr`.
-/

namespace QuizBack

/-! ## Data model of the session store (app.py) -/

/-- One option of a stored question, mirroring the dict built in
`post_question`: `{"text": ..., "is_correct": ..., **({"html": ...} if opt.html else {})}`.
`html = none` models the `"html"` key being absent. -/
structure StoredOption where
  text : String
  is_correct : Bool
  html : Option String
deriving DecidableEq, Repr

/-- The `question_data` dict stored in `active_pages[page_id]["current_question"]`. -/
structure StoredQuestion where
  text : String
  options : List StoredOption
  allow_multiple : Bool
  created_at : String
  active : Bool
  html : Option String
deriving DecidableEq, Repr

/-- One answer record appended by `post_answer`:
`{"option_indices": ..., "timestamp": ..., "is_correct": ...}`.
Indices are Python ints, hence `Int`. -/
structure AnswerRecord where
  option_indices : List Int
  timestamp : String
  is_correct : Bool
deriving DecidableEq, Repr

/-- The per-page entry of `active_pages`. -/
structure PageState where
  title : String
  description : String
  current_question : Option StoredQuestion
  answers : List AnswerRecord
  created_at : String
deriving DecidableEq, Repr

/-- Request body `Option` (pydantic model) of a question option. -/
structure QOption where
  text : String
  is_correct : Bool
  html : Option String
deriving DecidableEq, Repr

/-- Request body `Question` (pydantic model). -/
structure Question where
  text : String
  options : List QOption
  allow_multiple : Bool
  html : Option String
deriving DecidableEq, Repr

/-- The `HTTPException`s raised by the handlers in app.py. -/
inductive HErr where
  | notFound
  | invalidQuestion
  | noActiveQuestion
  | invalidOption (idx : Int)
  | multipleNotAllowed
deriving DecidableEq, Repr

/-- Python truthiness of an `Optional[str]`: `None` and `""` are falsy. -/
def strTruthy : Option String → Bool
  | none => false
  | some s => s ≠ ""

/-! ## Handlers of app.py -/

/-- Handler `create_page`: the fresh `active_pages[page_id]` entry (the generated
`page_id` itself lives in the out-of-scope store keying). -/
def create_page (title description now : String) : PageState :=
  { title := title
    description := description
    current_question := none
    answers := []
    created_at := now }

/-- The sanitized option dict `{"text": opt["text"], "html": opt.get("html")}`
built in `get_page_status`: no `is_correct` key. -/
structure SanitizedOption where
  text : String
  html : Option String
deriving DecidableEq, Repr

/-- The `sanitized_question` dict of `get_page_status`: a copy of the stored
question whose `"options"` entry is replaced by sanitized options. -/
structure SanitizedQuestion where
  text : String
  options : List SanitizedOption
  allow_multiple : Bool
  created_at : String
  active : Bool
  html : Option String
deriving DecidableEq, Repr

/-- The response of `get_page_status`: a copy of the page whose question (if
present) is sanitized; `answers` is the stored list itself (shallow copy). -/
structure StatusView where
  title : String
  description : String
  current_question : Option SanitizedQuestion
  answers : List AnswerRecord
  created_at : String
deriving DecidableEq, Repr

/-- Sanitization of one stored question as performed inline in `get_page_status`. -/
def sanitizeQuestion (q : StoredQuestion) : SanitizedQuestion :=
  { text := q.text
    options := q.options.map fun o => { text := o.text, html := o.html }
    allow_multiple := q.allow_multiple
    created_at := q.created_at
    active := q.active
    html := q.html }

/-- Handler `get_page_status` on an existing page (the `page_id not in active_pages`
404 branch lives in the out-of-scope store lookup).  Does not mutate the page. -/
def get_page_status (st : PageState) : StatusView :=
  { title := st.title
    description := st.description
    current_question := st.current_question.map sanitizeQuestion
    answers := st.answers
    created_at := st.created_at }

/-- The `question_data` dict built by `post_question`. -/
def mkQuestionData (q : Question) (now : String) : StoredQuestion :=
  { text := q.text
    options := q.options.map fun o =>
      { text := o.text
        is_correct := o.is_correct
        html := if strTruthy o.html then o.html else none }
    allow_multiple := q.allow_multiple || decide ((q.options.filter (·.is_correct)).length > 1)
    created_at := now
    active := true
    html := if strTruthy q.html then q.html else none }

/-- Handler `post_question` on an existing page: validates that some option is marked
correct, then stores the new question and clears the answers. -/
def post_question (st : PageState) (q : Question) (now : String) :
    Except HErr String × PageState :=
  if q.options.any (·.is_correct) then
    (.ok "success",
      { st with current_question := some (mkQuestionData q now), answers := [] })
  else
    (.error .invalidQuestion, st)

/-- The list comprehension `[i for i, opt in enumerate(options) if opt["is_correct"]]`
of `post_answer`, as Python ints. -/
def correctIndices (options : List StoredOption) : List Int :=
  ((List.range options.length).filter
    (fun i => ((options.get? i).map (·.is_correct)).getD false)).map Int.ofNat

/-- Python `set(a) == set(b)` on two int lists. -/
def setEqList (a b : List Int) : Bool :=
  a.all (fun x => b.contains x) && b.all (fun x => a.contains x)

/-- Access `options[i]["is_correct"]` for a Nat index (only evaluated after the
handler's range validation, so the `getD false` default is never reached
on the handler's path). -/
def optCorrectAt (options : List StoredOption) (i : Nat) : Bool :=
  ((options.get? i).map (·.is_correct)).getD false

/-- Handler `post_answer` on an existing page. -/
def post_answer (st : PageState) (option_indices : List Int) (now : String) :
    Except HErr String × PageState :=
  match st.current_question with
  | none => (.error .noActiveQuestion, st)
  | some q =>
    if q.active = false then (.error .noActiveQuestion, st)
    else
      let num_options : Int := q.options.length
      match option_indices.find? (fun i => decide (i < 0) || decide (num_options ≤ i)) with
      | some i => (.error (.invalidOption i), st)
      | none =>
        if q.allow_multiple = false ∧ option_indices.length > 1 then
          (.error .multipleNotAllowed, st)
        else
          let is_correct :=
            if q.allow_multiple then
              setEqList option_indices (correctIndices q.options)
            else
              match option_indices with
              | [] => false
              | i :: _ => optCorrectAt q.options i.toNat
          (.ok "success",
            { st with answers := st.answers ++
                [{ option_indices := option_indices
                   timestamp := now
                   is_correct := is_correct }] })

/-- One entry of the `option_stats` dict returned by `close_question`. -/
structure OptionStat where
  count : Nat
  percentage : ℚ
  is_correct : Bool
deriving DecidableEq, Repr

/-- The statistics object returned by `close_question`.  `option_stats`
models the dict `{i: {...} for i in range(len(options))}` as the list of its
key/value pairs in key order. -/
structure Stats where
  total_answers : Nat
  correct_answers : Nat
  correct_percentage : ℚ
  option_stats : List (Nat × OptionStat)
  is_multiple_choice : Bool
deriving DecidableEq, Repr

/-- Handler `close_question` on an existing page: requires a current question, marks
it inactive, and computes the statistics over the stored answers. -/
def close_question (st : PageState) : Except HErr Stats × PageState :=
  match st.current_question with
  | none => (.error .noActiveQuestion, st)
  | some q =>
    let st' : PageState := { st with current_question := some { q with active := false } }
    let total_answers := st.answers.length
    let correct_answers := (st.answers.filter (·.is_correct)).length
    let stats : Stats :=
      { total_answers := total_answers
        correct_answers := correct_answers
        correct_percentage :=
          if total_answers > 0 then (correct_answers : ℚ) / (total_answers : ℚ) * 100 else 0
        option_stats := (List.range q.options.length).map fun i =>
          let count := (st.answers.filter (fun a => a.option_indices.contains ((i : Int)))).length
          (i, { count := count
                percentage :=
                  if total_answers > 0 then (count : ℚ) / (total_answers : ℚ) * 100 else 0
                is_correct := optCorrectAt q.options i })
        is_multiple_choice := q.allow_multiple }
    (.ok stats, st')

/-- Page states reachable through the public operations: a freshly created
page, or the state left by any call to `post_question`, `post_answer` or
`close_question` (on any input, whether the call succeeded or raised).
`get_page_status` does not mutate the page. -/
inductive Reachable : PageState → Prop where
  | create (title description now : String) : Reachable (create_page title description now)
  | publish (st : PageState) (q : Question) (now : String) :
      Reachable st → Reachable (post_question st q now).2
  | answer (st : PageState) (option_indices : List Int) (now : String) :
      Reachable st → Reachable (post_answer st option_indices now).2
  | close (st : PageState) :
      Reachable st → Reachable (close_question st).2

/-! ## Token verifier (security.py) -/

/-- Python exception classes relevant to `verify_api_key`'s control flow.
`binascii.Error` (raised by `base64.b64decode`) is a subclass of
`ValueError`, and `json.JSONDecodeError` is too; both are listed here
separately to mirror the source's `except` tuple literally. -/
inductive PyErr where
  | typeError
  | keyError
  | valueError
  | jsonDecodeError
deriving DecidableEq, Repr

/-- Whether `except (ValueError, KeyError, json.JSONDecodeError)` catches
the exception. `TypeError` is not in the tuple. -/
def caughtByExcept : PyErr → Bool
  | .typeError => false
  | .keyError => true
  | .valueError => true
  | .jsonDecodeError => true

/-- A parsed JSON value, the possible results of `json.loads`. -/
inductive JsonVal where
  | obj (fields : List (String × JsonVal))
  | arr (elems : List JsonVal)
  | str (s : String)
  | num (n : Int)
  | bool (b : Bool)
  | null

/-- Python `k in payload` for a string `k`: key membership for a dict,
element equality for a list, substring test for a string, and a
`TypeError` for any other payload type. -/
def jsonContains (v : JsonVal) (k : String) : Except PyErr Bool :=
  match v with
  | .obj fields => .ok (fields.any (fun p => p.1 == k))
  | .arr elems => .ok (elems.any (fun e => match e with | .str s => s == k | _ => false))
  | .str s => .ok (decide (k.data <:+: s.data))
  | _ => .error .typeError

/-- Python `payload[k]` for a string `k`: dict lookup (`KeyError` when the
key is missing), `TypeError` for any non-dict payload. -/
def jsonGet (v : JsonVal) (k : String) : Except PyErr JsonVal :=
  match v with
  | .obj fields =>
    match fields.find? (fun p => p.1 == k) with
    | some p => .ok p.2
    | none => .error .keyError
  | _ => .error .typeError

/-- Lexicographic comparison of two character lists by code point, the
order Python uses for `str < str`. -/
def charListLt : List Char → List Char → Bool
  | [], [] => false
  | [], _ :: _ => true
  | _ :: _, [] => false
  | a :: as, b :: bs => if a < b then true else if b < a then false else charListLt as bs

/-- Python `a < b` on two strings: lexicographic by code point. -/
def pyStrLt (a b : String) : Bool := charListLt a.data b.data

/-- Python `payload['x'] < today` where `today` is a string: lexicographic
string comparison when `payload['x']` is a string, `TypeError` otherwise. -/
def jsonLtStr (v : JsonVal) (today : String) : Except PyErr Bool :=
  match v with
  | .str s => .ok (pyStrLt s today)
  | _ => .error .typeError

/-- Python `all(k in payload for k in ks)` with its left-to-right
short-circuit evaluation; an exception from a membership test propagates. -/
def allKeysIn (payload : JsonVal) : List String → Except PyErr Bool
  | [] => .ok true
  | k :: ks =>
    match jsonContains payload k with
    | .ok true => allKeysIn payload ks
    | .ok false => .ok false
    | .error e => .error e

/-- Behaviour of the external library calls used by `verify_api_key` and of
`datetime.now()`: `b64decode` (fails with `binascii.Error ⊂ ValueError`),
`json.loads` on the payload bytes (fails with `json.JSONDecodeError`),
`PUBLIC_KEY.verify signature message` (`true` = accepts, `false` = raises
`InvalidSignature`, which the inner `try` catches), and today's date as a
`YYYYMMDD` string.  Bytes are modelled as `List Nat`. -/
structure PyEnv where
  b64decode : String → Except PyErr (List Nat)
  jsonLoads : List Nat → Except PyErr JsonVal
  sigVerify : List Nat → List Nat → Bool
  today : String

/-- Results of a call to `verify_api_key`: the returned claim dict
`{'tid': payload['t'], 'email': payload['e'], 'expires': payload['x']}`, the
403 `InvalidAPIKey` / `ExpiredAPIKey` HTTP exceptions, or an uncaught Python
exception escaping the handler. -/
inductive VerifyResult where
  | claim (tid email expires : JsonVal)
  | invalidKey
  | expiredKey
  | uncaught (e : PyErr)

/-- Constant `SIGNATURE_SIZE`: Ed25519 signatures are exactly 64 bytes. -/
def SIGNATURE_SIZE : Nat := 64

/-- The body of `verify_api_key`'s outer `try` block.  `raise InvalidAPIKey()`
and `raise ExpiredAPIKey()` are `HTTPException`s, which the `except` tuple
does not catch, so they are ordinary results here; an `.error` is a Python
exception propagating out of the block.  Slicing follows Python:
`raw[:-64]` is the first `len - 64` bytes (empty when `len <= 64`) and
`raw[-64:]` the rest.  The claim dict is built only after the signature
verifies; its `payload['t']` and `payload['e']` lookups are evaluated in
order, and `payload['x']` reuses the value fetched for the expiry check
(for a dict payload, which is the only payload kind that reaches this
point, the lookups coincide). -/
def verify_body (env : PyEnv) (api_key : String) : Except PyErr VerifyResult :=
  match env.b64decode api_key with
  | .error e => .error e
  | .ok raw_data =>
    let payload_bytes := raw_data.take (raw_data.length - SIGNATURE_SIZE)
    let signature := raw_data.drop (raw_data.length - SIGNATURE_SIZE)
    match env.jsonLoads payload_bytes with
    | .error e => .error e
    | .ok payload =>
      match allKeysIn payload ["t", "e", "x"] with
      | .error e => .error e
      | .ok false => .ok .invalidKey
      | .ok true =>
        match jsonGet payload "x" with
        | .error e => .error e
        | .ok x =>
          match jsonLtStr x env.today with
          | .error e => .error e
          | .ok true => .ok .expiredKey
          | .ok false =>
            if env.sigVerify signature payload_bytes then
              match jsonGet payload "t", jsonGet payload "e" with
              | .ok t, .ok e => .ok (.claim t e x)
              | .error e, _ => .error e
              | .ok _, .error e2 => .error e2
            else
              .ok .invalidKey

/-- Handler dependency `verify_api_key`: the `try` body with the
`except (ValueError, KeyError, json.JSONDecodeError): raise InvalidAPIKey()`
handler wrapped around it; exceptions outside that tuple propagate. -/
def verify_api_key (env : PyEnv) (api_key : String) : VerifyResult :=
  match verify_body env api_key with
  | .ok r => r
  | .error e => if caughtByExcept e then .invalidKey else .uncaught e

/-! ## Auxiliary notions used by the theorems -/

/-- Question `q` with every option's `is_correct` flag replaced by `f` of its
position; all other data of the question is untouched.  Used to express
that a result does not depend on which options are marked correct. -/
def setQuestionCorrectFlags (f : Nat → Bool) (q : StoredQuestion) : StoredQuestion :=
  { q with options := q.options.enum.map fun p => { p.2 with is_correct := f p.1 } }

/-- State `st` with the correctness marks of its current question (if any)
replaced by `f`. -/
def setPageCorrectFlags (f : Nat → Bool) (st : PageState) : PageState :=
  { st with current_question := st.current_question.map (setQuestionCorrectFlags f) }

lemma sanitize_setQuestionCorrectFlags (f : Nat → Bool) (q : StoredQuestion) :
    sanitizeQuestion (setQuestionCorrectFlags f q) = sanitizeQuestion q := by
  simp only [sanitizeQuestion, setQuestionCorrectFlags, List.map_map]
  congr 1
  calc (q.options.enum.map
          ((fun o : StoredOption => SanitizedOption.mk o.text o.html) ∘
            fun p : Nat × StoredOption => { p.2 with is_correct := f p.1 }))
      = (q.options.enum.map Prod.snd).map
          (fun o : StoredOption => SanitizedOption.mk o.text o.html) := by
        rw [List.map_map]; rfl
    _ = q.options.map (fun o : StoredOption => SanitizedOption.mk o.text o.html) := by
        rw [List.enum_map_snd]

/-! ## C1 -/

/-- C1: for every stored session, the `get_page_status` view's question is
the sanitized question, whose options carry only their `text` and `html`
fields together with the question-level `allow_multiple` flag; in
particular the view is unchanged when the options' `is_correct` marks are
replaced arbitrarily, so no `is_correct` information about any option
reaches the view. -/
theorem get_status_hides_is_correct (st : PageState) (f : Nat → Bool) :
    (get_page_status st).current_question = st.current_question.map sanitizeQuestion ∧
    (∀ q : StoredQuestion,
      (sanitizeQuestion q).options =
        q.options.map (fun o => { text := o.text, html := o.html }) ∧
      (sanitizeQuestion q).allow_multiple = q.allow_multiple) ∧
    get_page_status (setPageCorrectFlags f st) = get_page_status st := by
  refine ⟨rfl, fun q => ⟨rfl, rfl⟩, ?_⟩
  unfold get_page_status setPageCorrectFlags
  cases h : st.current_question with
  | none => simp [h]
  | some q => simp [h, sanitize_setQuestionCorrectFlags]

/-! ## C6 -/

/-- C6: for every existing session and question spec with at least one
option marked correct, `post_question` succeeds, stores the new question
with `allow_multiple = explicit flag OR (count of correct options > 1)`
and `active = true`, replaces `current_question` wholesale and clears
`answers` in the same state transition (the result state holds both the
new question and the empty answer list, so no state pairs the new
question with prior answers). -/
theorem post_question_publishes (st : PageState) (q : Question) (now : String)
    (h : ∃ o ∈ q.options, o.is_correct = true) :
    post_question st q now =
      (.ok "success",
        { st with current_question := some (mkQuestionData q now), answers := [] }) ∧
    (mkQuestionData q now).allow_multiple =
      (q.allow_multiple || decide (1 < q.options.countP (·.is_correct))) ∧
    (mkQuestionData q now).active = true := by
  have hany : q.options.any (·.is_correct) = true := by
    rw [List.any_eq_true]; exact h
  refine ⟨by simp [post_question, hany], ?_, rfl⟩
  simp [mkQuestionData, List.countP_eq_length_filter]

/-- Witness for C6 at the spec's §8 example question. -/
theorem post_question_publishes_witness :
    post_question (create_page "T" "D" "t0")
        { text := "2+2?"
          options := [{ text := "3", is_correct := false, html := none },
                      { text := "4", is_correct := true, html := none }]
          allow_multiple := false
          html := none } "t1" =
      (.ok "success",
        { title := "T", description := "D"
          current_question := some
            { text := "2+2?"
              options := [{ text := "3", is_correct := false, html := none },
                          { text := "4", is_correct := true, html := none }]
              allow_multiple := false
              created_at := "t1"
              active := true
              html := none }
          answers := []
          created_at := "t0" }) := by
  exact (post_question_publishes (create_page "T" "D" "t0") _ "t1"
    ⟨{ text := "4", is_correct := true, html := none }, by decide⟩).1

/-! ## C7 -/

/-- C7: for every session and question spec in which no option is marked
correct, `post_question` fails with `InvalidQuestion` and returns the
session state exactly as it was: prior question, its `active` flag, and
the stored answers are untouched. -/
theorem post_question_rejects_no_correct (st : PageState) (q : Question) (now : String)
    (h : ∀ o ∈ q.options, o.is_correct = false) :
    post_question st q now = (.error .invalidQuestion, st) := by
  have hany : q.options.any (·.is_correct) = false := by
    rw [Bool.eq_false_iff]
    intro hc
    rw [List.any_eq_true] at hc
    obtain ⟨o, ho, hoc⟩ := hc
    simp [h o ho] at hoc
  simp [post_question, hany]

/-- Witness for C7: publishing an all-wrong question on a page that already
has a question and answers leaves everything as it was. -/
theorem post_question_rejects_no_correct_witness :
    post_question
      { title := "T", description := "D"
        current_question := some
          { text := "old", options := [{ text := "a", is_correct := true, html := none }]
            allow_multiple := false, created_at := "t1", active := true, html := none }
        answers := [{ option_indices := [0], timestamp := "t2", is_correct := true }]
        created_at := "t0" }
      { text := "new"
        options := [{ text := "b", is_correct := false, html := none }]
        allow_multiple := false, html := none } "t3" =
    (.error .invalidQuestion,
      { title := "T", description := "D"
        current_question := some
          { text := "old", options := [{ text := "a", is_correct := true, html := none }]
            allow_multiple := false, created_at := "t1", active := true, html := none }
        answers := [{ option_indices := [0], timestamp := "t2", is_correct := true }]
        created_at := "t0" }) := by
  exact post_question_rejects_no_correct _ _ "t3" (by decide)

/-! ## C2 -/

/-- A three-option single-select question whose correct option is at
position 0. -/
def exampleQuestionA : Question :=
  { text := "q"
    options := [{ text := "a", is_correct := true, html := none },
                { text := "b", is_correct := false, html := none },
                { text := "c", is_correct := false, html := none }]
    allow_multiple := false
    html := none }

/-- The same question with the correct option at position 1 instead. -/
def exampleQuestionB : Question :=
  { text := "q"
    options := [{ text := "a", is_correct := false, html := none },
                { text := "b", is_correct := true, html := none },
                { text := "c", is_correct := false, html := none }]
    allow_multiple := false
    html := none }

/-- Page with `exampleQuestionA` published and the single answer `[2]`
submitted (an option wrong in both variants). -/
def pageAWrongAnswer : PageState :=
  (post_answer (post_question (create_page "T" "D" "t0") exampleQuestionA "t1").2 [2] "t2").2

/-- Page with `exampleQuestionB` published and the single answer `[2]`
submitted. -/
def pageBWrongAnswer : PageState :=
  (post_answer (post_question (create_page "T" "D" "t0") exampleQuestionB "t1").2 [2] "t2").2

/-- C2 counterexample: two sessions that differ only in which options are
marked correct (the second is the first with its correctness marks
rewritten), each with one submitted answer and a still-active question,
whose `get_page_status` views are nevertheless identical — the submitted
option is wrong in both, so the frozen `is_correct` coincides.  This
refutes the claim that such sessions always yield different views once an
answer has been submitted. -/
theorem get_status_equal_despite_different_marks :
    pageBWrongAnswer = setPageCorrectFlags (fun i => i == 1) pageAWrongAnswer ∧
    pageAWrongAnswer ≠ pageBWrongAnswer ∧
    pageAWrongAnswer.answers.length = 1 ∧
    (pageAWrongAnswer.current_question.map (·.active)) = some true ∧
    get_page_status pageAWrongAnswer = get_page_status pageBWrongAnswer := by
  refine ⟨by decide, by decide, by decide, by decide, by decide⟩

/-- A question spec with every option's `is_correct` mark replaced by `f`
of its position, all else untouched. -/
def setSpecCorrectFlags (f : Nat → Bool) (q : Question) : Question :=
  { q with options := q.options.enum.map fun p => { p.2 with is_correct := f p.1 } }

/-- Page with `exampleQuestionA` published and the single answer `[0]`
submitted (correct in variant A, wrong in variant B). -/
def pageACorrectAnswer : PageState :=
  (post_answer (post_question (create_page "T" "D" "t0") exampleQuestionA "t1").2 [0] "t2").2

/-- Page with `exampleQuestionB` published and the single answer `[0]`
submitted. -/
def pageBCorrectAnswer : PageState :=
  (post_answer (post_question (create_page "T" "D" "t0") exampleQuestionB "t1").2 [0] "t2").2

/-- C2 (amended): for every stored session, the `get_page_status` view
includes the stored answers list verbatim — every record's
`option_indices`, `timestamp` and frozen `is_correct` — with no
authentication and regardless of whether the question is active; and two
sessions that differ only in which options are marked correct CAN yield
different views as soon as one answer is submitted, namely when the
answer's frozen `is_correct` differs (witnessed by two sessions built by
the same create/publish/submit history from question specs differing only
in their correctness marks, with a still-active question). -/
theorem get_status_exposes_answers (st : PageState) :
    (get_page_status st).answers = st.answers ∧
    exampleQuestionB = setSpecCorrectFlags (fun i => i == 1) exampleQuestionA ∧
    pageACorrectAnswer.answers.length = 1 ∧
    (pageACorrectAnswer.current_question.map (·.active)) = some true ∧
    get_page_status pageACorrectAnswer ≠ get_page_status pageBCorrectAnswer := by
  refine ⟨rfl, by decide, by decide, by decide, by decide⟩

/-! ## C8 -/

lemma setEqList_true_iff (a b : List Int) :
    setEqList a b = true ↔ (∀ x : Int, x ∈ a ↔ x ∈ b) := by
  rw [setEqList, Bool.and_eq_true, List.all_eq_true, List.all_eq_true]
  constructor
  · rintro ⟨h1, h2⟩ x
    exact ⟨fun hx => List.elem_iff.mp (h1 x hx), fun hx => List.elem_iff.mp (h2 x hx)⟩
  · intro h
    exact ⟨fun x hx => List.elem_iff.mpr ((h x).1 hx),
           fun x hx => List.elem_iff.mpr ((h x).2 hx)⟩

lemma mem_correctIndices (options : List StoredOption) (j : Int) :
    j ∈ correctIndices options ↔
      0 ≤ j ∧ j.toNat < options.length ∧ optCorrectAt options j.toNat = true := by
  unfold correctIndices optCorrectAt
  simp only [Int.ofNat_eq_natCast, List.mem_map, List.mem_filter, List.mem_range]
  constructor
  · rintro ⟨i, ⟨hi, hc⟩, rfl⟩
    rw [Int.toNat_natCast]
    exact ⟨Int.natCast_nonneg i, hi, hc⟩
  · rintro ⟨h0, hlt, hc⟩
    exact ⟨j.toNat, ⟨hlt, hc⟩, Int.toNat_of_nonneg h0⟩

/-- C8: for every call to `post_answer` on a session with an active
question whose submitted indices are all in range and which passes the
`MultipleNotAllowed` check, the call succeeds (also on an empty index
list) and appends one record freezing `is_correct` as: under
`allow_multiple`, correct iff the set of submitted indices equals exactly
the set of positions of options marked correct; otherwise, `false` for an
empty list and the marked-correctness of the single submitted index's
option for a non-empty one. -/
theorem post_answer_freezes_correctness (st : PageState) (q : StoredQuestion)
    (idxs : List Int) (now : String)
    (hq : st.current_question = some q) (hact : q.active = true)
    (hrange : ∀ i ∈ idxs, 0 ≤ i ∧ i < (q.options.length : Int))
    (hmult : q.allow_multiple = false → idxs.length ≤ 1) :
    ∃ b : Bool,
      post_answer st idxs now =
        (.ok "success",
          { st with answers := st.answers ++
              [{ option_indices := idxs, timestamp := now, is_correct := b }] }) ∧
      (q.allow_multiple = true →
        (b = true ↔ ∀ j : Int, j ∈ idxs ↔
          (0 ≤ j ∧ j.toNat < q.options.length ∧ optCorrectAt q.options j.toNat = true))) ∧
      (q.allow_multiple = false → idxs = [] → b = false) ∧
      (q.allow_multiple = false → ∀ i rest, idxs = i :: rest →
        b = optCorrectAt q.options i.toNat) := by
  have hfind : idxs.find?
      (fun i => decide (i < 0) || decide ((q.options.length : Int) ≤ i)) = none := by
    rw [List.find?_eq_none]
    intro x hx
    obtain ⟨h0, hlt⟩ := hrange x hx
    simp [not_lt.mpr h0, not_le.mpr hlt]
  have hcond : ¬ (q.allow_multiple = false ∧ idxs.length > 1) := by
    rintro ⟨hm, hlen⟩
    exact absurd (hmult hm) (by omega)
  cases hm : q.allow_multiple with
  | true =>
    refine ⟨setEqList idxs (correctIndices q.options), ?_, ?_, ?_, ?_⟩
    · simp [post_answer, hq, hact, hfind, hcond, hm]
    · intro _
      rw [setEqList_true_iff]
      constructor
      · intro h j
        rw [h j, mem_correctIndices]
      · intro h j
        rw [h j, mem_correctIndices]
    · intro h; simp at h
    · intro h; simp at h
  | false =>
    cases idxs with
    | nil =>
      refine ⟨false, ?_, ?_, fun _ _ => rfl, ?_⟩
      · simp [post_answer, hq, hact, hm]
      · intro h; simp at h
      · intro _ i rest h; cases h
    | cons i rest =>
      have hrest : rest = [] := by
        have h1 := hmult hm
        simp only [List.length_cons] at h1
        exact List.eq_nil_of_length_eq_zero (by omega)
      subst hrest
      refine ⟨optCorrectAt q.options i.toNat, ?_, ?_, ?_, ?_⟩
      · simp [post_answer, hq, hact, hfind, hm, optCorrectAt]
      · intro h; simp at h
      · intro _ h; cases h
      · intro _ i' rest' h
        cases h
        rfl

/-- Page with the multi-select question `[correct, correct, wrong]`
published (the spec's §8 multi-select example). -/
def pageMultiSelect : PageState :=
  (post_question (create_page "T" "D" "t0")
    { text := "m"
      options := [{ text := "a", is_correct := true, html := none },
                  { text := "b", is_correct := true, html := none },
                  { text := "c", is_correct := false, html := none }]
      allow_multiple := false
      html := none } "t1").2

/-- Witness for C8: submitting `[0, 1]` to the `[correct, correct, wrong]`
multi-select question succeeds and freezes some verdict. -/
theorem post_answer_freezes_correctness_witness :
    ∃ b : Bool,
      post_answer pageMultiSelect [0, 1] "t2" =
        (.ok "success",
          { pageMultiSelect with answers := pageMultiSelect.answers ++
              [{ option_indices := [0, 1], timestamp := "t2", is_correct := b }] }) := by
  obtain ⟨b, hb, -, -, -⟩ :=
    post_answer_freezes_correctness pageMultiSelect
      (mkQuestionData
        { text := "m"
          options := [{ text := "a", is_correct := true, html := none },
                      { text := "b", is_correct := true, html := none },
                      { text := "c", is_correct := false, html := none }]
          allow_multiple := false
          html := none } "t1")
      [0, 1] "t2" (by decide) (by decide) (by decide) (by decide)
  exact ⟨b, hb⟩

/-! ## C9 -/

/-- C9: for every session with a current question, `close_question` leaves
the question stored with `active = false` (so any subsequent `post_answer`
fails with `NoActiveQuestion`) and returns statistics with
`total_answers` = number of stored records, `correct_answers` = number of
records whose frozen `is_correct` is true, `correct_percentage` =
`correct / total * 100` and `0` when there are no answers, and, for every
option position `k`, an `option_stats` entry whose `count` is the number
of stored answers selecting `k`, whose `percentage` is `count / total *
100` (`0` when no answers), and which includes the option's `is_correct`
flag; the zero-answer case produces `0` percentages rather than a
division fault (percentages are exact rationals here, standing for
Python's float division). -/
theorem close_question_closes_and_counts (st : PageState) (q : StoredQuestion)
    (hq : st.current_question = some q) :
    (close_question st).2 =
      { st with current_question := some { q with active := false } } ∧
    (∀ idxs now, (post_answer (close_question st).2 idxs now).1 =
      .error .noActiveQuestion) ∧
    ∃ stats : Stats, (close_question st).1 = .ok stats ∧
      stats.total_answers = st.answers.length ∧
      stats.correct_answers = st.answers.countP (·.is_correct) ∧
      (st.answers.length = 0 → stats.correct_percentage = 0) ∧
      (0 < st.answers.length →
        stats.correct_percentage =
          (st.answers.countP (·.is_correct) : ℚ) / (st.answers.length : ℚ) * 100) ∧
      stats.option_stats.length = q.options.length ∧
      (∀ k, k < q.options.length →
        stats.option_stats[k]? = some (k,
          { count := st.answers.countP (fun a => a.option_indices.contains ((k : Int)))
            percentage :=
              if st.answers.length = 0 then 0
              else (st.answers.countP (fun a => a.option_indices.contains ((k : Int))) : ℚ) /
                (st.answers.length : ℚ) * 100
            is_correct := optCorrectAt q.options k })) ∧
      stats.is_multiple_choice = q.allow_multiple := by
  refine ⟨by simp [close_question, hq], ?_, ?_⟩
  · intro idxs now
    simp [close_question, hq, post_answer]
  · simp only [close_question, hq]
    refine ⟨_, rfl, rfl, ?_, ?_, ?_, ?_, ?_, rfl⟩
    · simp [List.countP_eq_length_filter]
    · intro h
      simp [h]
    · intro h
      simp [h, List.countP_eq_length_filter]
    · simp only [List.length_map, List.length_range]
    · intro k hk
      rw [List.getElem?_map _ _ k, List.getElem?_range hk]
      by_cases h0 : st.answers.length = 0 <;>
        simp [h0, Nat.pos_iff_ne_zero, List.countP_eq_length_filter]

/-- The 2+2 page after both answers of the spec's §8 scenario. -/
def pageTwoAnswers : PageState :=
  (post_answer
    (post_answer
      (post_question (create_page "T" "D" "t0")
        { text := "2+2?"
          options := [{ text := "3", is_correct := false, html := none },
                      { text := "4", is_correct := true, html := none }]
          allow_multiple := false
          html := none } "t1").2
      [1] "t2").2
    [0] "t3").2

/-- Witness for C9 on the spec's §8 scenario page: the closed state keeps
the question with `active = false` and both answers. -/
theorem close_question_closes_and_counts_witness :
    (close_question pageTwoAnswers).2 =
      { title := "T", description := "D"
        current_question := some
          { text := "2+2?"
            options := [{ text := "3", is_correct := false, html := none },
                        { text := "4", is_correct := true, html := none }]
            allow_multiple := false
            created_at := "t1"
            active := false
            html := none }
        answers := [{ option_indices := [1], timestamp := "t2", is_correct := true },
                    { option_indices := [0], timestamp := "t3", is_correct := false }]
        created_at := "t0" } := by
  exact (close_question_closes_and_counts pageTwoAnswers
    { text := "2+2?"
      options := [{ text := "3", is_correct := false, html := none },
                  { text := "4", is_correct := true, html := none }]
      allow_multiple := false
      created_at := "t1"
      active := true
      html := none } (by decide)).1

/-! ## C3 -/

lemma jsonContains_of_jsonGet (kvs : List (String × JsonVal)) (k : String) (v : JsonVal)
    (h : jsonGet (.obj kvs) k = .ok v) : jsonContains (.obj kvs) k = .ok true := by
  simp only [jsonGet] at h
  simp only [jsonContains]
  cases hf : kvs.find? (fun p => p.1 == k) with
  | none => rw [hf] at h; cases h
  | some p =>
    congr 1
    rw [List.any_eq_true]
    refine ⟨p, List.mem_of_find?_eq_some hf, ?_⟩
    have hp := List.find?_some hf
    simpa using hp

lemma take_drop_signature (pb sig : List Nat) (hsig : sig.length = SIGNATURE_SIZE) :
    (pb ++ sig).take ((pb ++ sig).length - SIGNATURE_SIZE) = pb ∧
    (pb ++ sig).drop ((pb ++ sig).length - SIGNATURE_SIZE) = sig := by
  have hlen : (pb ++ sig).length - SIGNATURE_SIZE = pb.length := by
    rw [List.length_append, hsig]
    omega
  rw [hlen]
  exact ⟨List.take_left pb sig, List.drop_left pb sig⟩

/-- C3: every credential whose decoding yields a JSON-object payload
followed by a 64-byte signature, whose payload carries the fields `t`, `e`
and `x` with `x` a date string not lexicographically below today, and
whose signature the public key accepts over exactly the payload bytes, is
accepted: `verify_api_key` returns the claim built from `t`, `e` and `x`
(the code's `tid`/`email`/`expires` dict) rather than any rejection. -/
theorem verify_api_key_accepts_valid (env : PyEnv) (key : String) (pb sig : List Nat)
    (kvs : List (String × JsonVal)) (tv ev : JsonVal) (xs : String)
    (hdec : env.b64decode key = .ok (pb ++ sig))
    (hsig : sig.length = SIGNATURE_SIZE)
    (hjson : env.jsonLoads pb = .ok (.obj kvs))
    (ht : jsonGet (.obj kvs) "t" = .ok tv)
    (he : jsonGet (.obj kvs) "e" = .ok ev)
    (hx : jsonGet (.obj kvs) "x" = .ok (.str xs))
    (hexp : pyStrLt xs env.today = false)
    (hver : env.sigVerify sig pb = true) :
    verify_api_key env key = .claim tv ev (.str xs) := by
  obtain ⟨htake, hdrop⟩ := take_drop_signature pb sig hsig
  have hkeys : allKeysIn (JsonVal.obj kvs) ["t", "e", "x"] = .ok true := by
    simp only [allKeysIn, jsonContains_of_jsonGet kvs "t" tv ht,
      jsonContains_of_jsonGet kvs "e" ev he,
      jsonContains_of_jsonGet kvs "x" (.str xs) hx]
  unfold verify_api_key verify_body
  rw [hdec]
  simp only [htake, hdrop, hjson, hkeys, hx, jsonLtStr, hexp, hver, ht, he, if_true]

/-- Environment realizing C3's hypotheses: decoding yields a 1-byte payload
and a 64-byte signature, the payload parses to
`{"t": "alice", "e": "a@b", "x": "99991231"}`, and the key accepts. -/
def envValid : PyEnv :=
  { b64decode := fun _ => .ok ([123] ++ List.replicate 64 0)
    jsonLoads := fun _ => .ok (.obj [("t", .str "alice"), ("e", .str "a@b"),
      ("x", .str "99991231")])
    sigVerify := fun _ _ => true
    today := "20261012" }

/-- Witness for C3 in `envValid`. -/
theorem verify_api_key_accepts_valid_witness :
    verify_api_key envValid "k" =
      .claim (.str "alice") (.str "a@b") (.str "99991231") := by
  exact verify_api_key_accepts_valid envValid "k" [123] (List.replicate 64 0)
    [("t", .str "alice"), ("e", .str "a@b"), ("x", .str "99991231")]
    (.str "alice") (.str "a@b") "99991231"
    rfl (by simp [SIGNATURE_SIZE]) rfl rfl rfl rfl (by decide) rfl

/-! ## C4 -/

/-- C4: for every credential decoding to a well-formed JSON-object payload
with fields `t`, `e`, `x` (with `x` a string), if `x` is lexicographically
strictly below today then `verify_api_key` rejects as `Expired` whatever
the signature verifier would answer (the first conjunct holds for every
substituted verifier, so expiry is decided without consulting the
signature); if `x` is not below today and the signature is invalid, the
signature check still runs and the credential is rejected as `Invalid`. -/
theorem verify_api_key_expiry_ordering (env : PyEnv) (key : String) (pb sig : List Nat)
    (kvs : List (String × JsonVal)) (tv ev : JsonVal) (xs : String)
    (hdec : env.b64decode key = .ok (pb ++ sig))
    (hsig : sig.length = SIGNATURE_SIZE)
    (hjson : env.jsonLoads pb = .ok (.obj kvs))
    (ht : jsonGet (.obj kvs) "t" = .ok tv)
    (he : jsonGet (.obj kvs) "e" = .ok ev)
    (hx : jsonGet (.obj kvs) "x" = .ok (.str xs)) :
    (pyStrLt xs env.today = true →
      ∀ sv : List Nat → List Nat → Bool,
        verify_api_key { env with sigVerify := sv } key = .expiredKey) ∧
    (pyStrLt xs env.today = false → env.sigVerify sig pb = false →
      verify_api_key env key = .invalidKey) := by
  obtain ⟨htake, hdrop⟩ := take_drop_signature pb sig hsig
  have hkeys : allKeysIn (JsonVal.obj kvs) ["t", "e", "x"] = .ok true := by
    simp only [allKeysIn, jsonContains_of_jsonGet kvs "t" tv ht,
      jsonContains_of_jsonGet kvs "e" ev he,
      jsonContains_of_jsonGet kvs "x" (.str xs) hx]
  constructor
  · intro hlt sv
    unfold verify_api_key verify_body
    simp only [hdec, htake, hdrop, hjson, hkeys, hx, jsonLtStr, hlt]
  · intro hlt hsv
    unfold verify_api_key verify_body
    rw [hdec]
    simp only [htake, hdrop, hjson, hkeys, hx, jsonLtStr, hlt, hsv]
    simp

/-- Environment with an expired payload (`x` = "20200101", today
"20261012") and an accepting verifier. -/
def envExpired : PyEnv :=
  { b64decode := fun _ => .ok ([123] ++ List.replicate 64 0)
    jsonLoads := fun _ => .ok (.obj [("t", .str "alice"), ("e", .str "a@b"),
      ("x", .str "20200101")])
    sigVerify := fun _ _ => true
    today := "20261012" }

/-- Environment with an unexpired payload and a rejecting verifier. -/
def envBadSig : PyEnv :=
  { b64decode := fun _ => .ok ([123] ++ List.replicate 64 0)
    jsonLoads := fun _ => .ok (.obj [("t", .str "alice"), ("e", .str "a@b"),
      ("x", .str "99991231")])
    sigVerify := fun _ _ => false
    today := "20261012" }

/-- Witness for C4: the expired credential is rejected `Expired` even with
an accepting verifier; the unexpired, badly signed one is rejected
`Invalid`. -/
theorem verify_api_key_expiry_ordering_witness :
    verify_api_key envExpired "k" = .expiredKey ∧
    verify_api_key envBadSig "k" = .invalidKey := by
  constructor
  · exact (verify_api_key_expiry_ordering envExpired "k" [123] (List.replicate 64 0)
      [("t", .str "alice"), ("e", .str "a@b"), ("x", .str "20200101")]
      (.str "alice") (.str "a@b") "20200101"
      rfl (by simp [SIGNATURE_SIZE]) rfl rfl rfl rfl).1 (by decide) (fun _ _ => true)
  · exact (verify_api_key_expiry_ordering envBadSig "k" [123] (List.replicate 64 0)
      [("t", .str "alice"), ("e", .str "a@b"), ("x", .str "99991231")]
      (.str "alice") (.str "a@b") "99991231"
      rfl (by simp [SIGNATURE_SIZE]) rfl rfl rfl rfl).2 (by decide) rfl

/-! ## C5 -/

/-- JSON kinds on which Python `in` membership is defined for a string
needle: dicts, lists and strings.  On numbers, booleans and `None`,
`'t' in payload` raises `TypeError`. -/
def memberTestable : JsonVal → Bool
  | .obj _ => true
  | .arr _ => true
  | .str _ => true
  | _ => false

/-- Whether the payload has the field `k` in the sense of Python's `in`
(key of a dict, string element of a list, substring of a string). -/
def hasField (p : JsonVal) (k : String) : Bool :=
  match jsonContains p k with
  | .ok b => b
  | .error _ => false

lemma jsonContains_of_memberTestable (p : JsonVal) (k : String)
    (h : memberTestable p = true) : jsonContains p k = .ok (hasField p k) := by
  cases p with
  | obj fields => rfl
  | arr elems => rfl
  | str s => rfl
  | num n => simp [memberTestable] at h
  | bool b => simp [memberTestable] at h
  | null => simp [memberTestable] at h

/-- Environment whose credential decodes fine (1 payload byte plus 64
signature bytes) and whose payload bytes parse to the JSON value `null` —
a payload that has none of the required fields. -/
def envNullPayload : PyEnv :=
  { b64decode := fun _ => .ok ([110] ++ List.replicate 64 0)
    jsonLoads := fun _ => .ok .null
    sigVerify := fun _ _ => true
    today := "20261012" }

/-- C5 counterexample: a credential that decodes and JSON-parses fine but
whose payload is the non-object JSON value `null` — lacking all three
required fields — makes `verify_api_key` raise an uncaught Python
`TypeError` (at `'t' in payload`), not the claimed `Invalid` rejection:
`TypeError` is outside the handler's
`except (ValueError, KeyError, json.JSONDecodeError)` tuple. -/
theorem verify_api_key_uncaught_on_null_payload :
    envNullPayload.b64decode "k" = .ok ([110] ++ List.replicate 64 0) ∧
    envNullPayload.jsonLoads [110] = .ok .null ∧
    verify_api_key envNullPayload "k" = .uncaught .typeError ∧
    VerifyResult.uncaught .typeError ≠ .invalidKey := by
  refine ⟨rfl, rfl, rfl, fun h => VerifyResult.noConfusion h⟩

/-- The structural-failure cases of C5, as amended: bad base64 (raises
`binascii.Error`, a `ValueError`); decoded blob shorter than the 64-byte
signature (so the payload slice is empty and JSON parsing fails); payload
bytes that are not valid JSON; or a JSON payload of a membership-testable
kind (object, array or string) lacking one of `t`, `e`, `x`. -/
def StructuralFailure (env : PyEnv) (key : String) : Prop :=
  env.b64decode key = .error .valueError ∨
  (∃ raw, env.b64decode key = .ok raw ∧ raw.length < SIGNATURE_SIZE ∧
    env.jsonLoads [] = .error .jsonDecodeError) ∨
  (∃ raw, env.b64decode key = .ok raw ∧
    env.jsonLoads (raw.take (raw.length - SIGNATURE_SIZE)) = .error .jsonDecodeError) ∨
  (∃ raw p, env.b64decode key = .ok raw ∧
    env.jsonLoads (raw.take (raw.length - SIGNATURE_SIZE)) = .ok p ∧
    memberTestable p = true ∧
    ¬ (hasField p "t" = true ∧ hasField p "e" = true ∧ hasField p "x" = true))

/-- C5 (amended): every structural decoding failure — invalid base64, blob
shorter than the signature, non-JSON payload bytes, or a
membership-testable JSON payload (object, array or string) lacking one of
the three required fields — is rejected with kind `Invalid`: never
`Expired`, and no exception escapes.  (As the counterexample shows, a
payload of a non-membership-testable JSON kind instead raises an uncaught
`TypeError`, which is why the last case is restricted.) -/
theorem verify_api_key_invalid_on_structural_failure (env : PyEnv) (key : String)
    (h : StructuralFailure env key) :
    verify_api_key env key = .invalidKey := by
  rcases h with hb | ⟨raw, hb, hshort, hjson⟩ | ⟨raw, hb, hjson⟩ |
    ⟨raw, p, hb, hjson, hmt, hmiss⟩
  · simp [verify_api_key, verify_body, hb, caughtByExcept]
  · have h0 : raw.length - SIGNATURE_SIZE = 0 := by omega
    simp [verify_api_key, verify_body, hb, h0, hjson, caughtByExcept]
  · simp [verify_api_key, verify_body, hb, hjson, caughtByExcept]
  · have c1 := jsonContains_of_memberTestable p "t" hmt
    have c2 := jsonContains_of_memberTestable p "e" hmt
    have c3 := jsonContains_of_memberTestable p "x" hmt
    have hkeys : allKeysIn p ["t", "e", "x"] = .ok false := by
      cases h1 : hasField p "t" with
      | false => simp [allKeysIn, c1, h1]
      | true =>
        cases h2 : hasField p "e" with
        | false => simp [allKeysIn, c1, c2, h1, h2]
        | true =>
          cases h3 : hasField p "x" with
          | false => simp [allKeysIn, c1, c2, c3, h1, h2, h3]
          | true => exact absurd ⟨h1, h2, h3⟩ hmiss
    simp [verify_api_key, verify_body, hb, hjson, hkeys]

/-- Environment whose `b64decode` raises `binascii.Error` (`ValueError`). -/
def envBadBase64 : PyEnv :=
  { b64decode := fun _ => .error .valueError
    jsonLoads := fun _ => .error .jsonDecodeError
    sigVerify := fun _ _ => false
    today := "20261012" }

/-- Witness for the amended C5 on the invalid-base64 case. -/
theorem verify_api_key_invalid_on_structural_failure_witness :
    verify_api_key envBadBase64 "not base64!" = .invalidKey := by
  exact verify_api_key_invalid_on_structural_failure envBadBase64 "not base64!"
    (Or.inl rfl)

/-! ## C10 -/

lemma post_question_snd (st : PageState) (q : Question) (now : String) :
    (post_question st q now).2 = st ∨
    (post_question st q now).2 =
      { st with current_question := some (mkQuestionData q now), answers := [] } := by
  cases h : q.options.any (·.is_correct) with
  | true => right; simp [post_question, h]
  | false => left; simp [post_question, h]

lemma post_answer_snd (st : PageState) (idxs : List Int) (now : String) :
    (post_answer st idxs now).2 = st ∨
    ∃ q, st.current_question = some q ∧
      (post_answer st idxs now).2 =
        { st with answers := st.answers ++
            [{ option_indices := idxs, timestamp := now
               is_correct :=
                 if q.allow_multiple then setEqList idxs (correctIndices q.options)
                 else match idxs with
                   | [] => false
                   | i :: _ => optCorrectAt q.options i.toNat }] } ∧
      (∀ i ∈ idxs, 0 ≤ i ∧ i < (q.options.length : Int)) ∧
      (q.allow_multiple = false → idxs.length ≤ 1) := by
  cases hcq : st.current_question with
  | none => left; simp [post_answer, hcq]
  | some q =>
    cases hact : q.active with
    | false => left; simp [post_answer, hcq, hact]
    | true =>
      cases hfind : idxs.find?
          (fun i => decide (i < 0) || decide ((q.options.length : Int) ≤ i)) with
      | some i => left; simp [post_answer, hcq, hact, hfind]
      | none =>
        by_cases hmul : q.allow_multiple = false ∧ idxs.length > 1
        · left; simp [post_answer, hcq, hact, hfind, hmul]
        · right
          refine ⟨q, rfl, ?_, ?_, ?_⟩
          · simp [post_answer, hcq, hact, hfind, hmul]
          · intro i hi
            have hx := List.find?_eq_none.mp hfind i hi
            simp only [Bool.or_eq_true, decide_eq_true_eq, not_or] at hx
            omega
          · intro hm
            by_contra hlen
            exact hmul ⟨hm, by omega⟩

lemma close_question_snd (st : PageState) :
    (close_question st).2 = st ∨
    ∃ q, st.current_question = some q ∧
      (close_question st).2 =
        { st with current_question := some { q with active := false } } := by
  cases hcq : st.current_question with
  | none => left; simp [close_question, hcq]
  | some q => right; exact ⟨q, rfl, by simp [close_question, hcq]⟩

/-- C10 (amended): in every state reachable through the public operations,
every stored answer record's `option_indices` holds positions of the
current question's options, each within `[0, len(options))`, and when the
question's `allow_multiple` is false the record holds at most one index.
(The unamended claim also required non-emptiness and, for single-select,
exactly one index; the counterexample shows an accepted empty
submission.) -/
theorem reachable_answers_in_range (st : PageState) (h : Reachable st) :
    ∀ a ∈ st.answers, ∃ q, st.current_question = some q ∧
      (∀ i ∈ a.option_indices, 0 ≤ i ∧ i < (q.options.length : Int)) ∧
      (q.allow_multiple = false → a.option_indices.length ≤ 1) := by
  induction h with
  | create title description now =>
    intro a ha
    simp [create_page] at ha
  | publish st q now hst ih =>
    rcases post_question_snd st q now with heq | heq
    · rw [heq]; exact ih
    · rw [heq]
      intro a ha
      simp at ha
  | answer st idxs now hst ih =>
    rcases post_answer_snd st idxs now with heq | ⟨q, hcq, heq, hrange, hmul⟩
    · rw [heq]; exact ih
    · rw [heq]
      intro a ha
      rw [List.mem_append] at ha
      rcases ha with ha | ha
      · obtain ⟨q', hq', hr, hm⟩ := ih a ha
        exact ⟨q', hq', hr, hm⟩
      · rw [List.mem_singleton] at ha
        subst ha
        exact ⟨q, hcq, hrange, hmul⟩
  | close st hst ih =>
    rcases close_question_snd st with heq | ⟨q, hcq, heq⟩
    · rw [heq]; exact ih
    · rw [heq]
      intro a ha
      obtain ⟨q', hq', hr, hm⟩ := ih a ha
      rw [hcq] at hq'
      obtain rfl : q = q' := by injection hq'
      exact ⟨{ q with active := false }, rfl, hr, hm⟩

/-- Page with the single-select `exampleQuestionA` published and an empty
answer `[]` submitted — which `post_answer` accepts. -/
def pageEmptyAnswer : PageState :=
  (post_answer (post_question (create_page "T" "D" "t0") exampleQuestionA "t1").2
    [] "t2").2

/-- C10 counterexample: a state reachable through the public operations
whose single-select question (`allow_multiple = false`) stores an answer
record with EMPTY `option_indices` — refuting both the claimed
non-emptiness and the claimed exactly-one-element property. -/
theorem reachable_empty_answer_record :
    Reachable pageEmptyAnswer ∧
    (pageEmptyAnswer.current_question.map (·.allow_multiple)) = some false ∧
    ∃ a ∈ pageEmptyAnswer.answers, a.option_indices = [] := by
  refine ⟨?_, by decide, ?_⟩
  · exact Reachable.answer _ [] "t2"
      (Reachable.publish _ exampleQuestionA "t1" (Reachable.create "T" "D" "t0"))
  · exact ⟨{ option_indices := [], timestamp := "t2", is_correct := false },
      by decide, rfl⟩

/-- Witness for the amended C10 at a concrete reachable state, applied to
its one stored answer record. -/
theorem reachable_answers_in_range_witness :
    ∃ q, pageACorrectAnswer.current_question = some q ∧
      (∀ i ∈ ([0] : List Int), 0 ≤ i ∧ i < (q.options.length : Int)) ∧
      (q.allow_multiple = false → ([0] : List Int).length ≤ 1) := by
  exact reachable_answers_in_range pageACorrectAnswer
    (Reachable.answer _ [0] "t2"
      (Reachable.publish _ exampleQuestionA "t1" (Reachable.create "T" "D" "t0")))
    { option_indices := [0], timestamp := "t2", is_correct := true }
    (by decide)

end QuizBack
